import Mathlib

/-!
Shallow embedding of `src/books2.py`: a FastAPI book-catalog service whose
read (and one write) endpoints are wrapped by a Redis-backed
response-memoization decorator `cache_response`.

Modelling conventions:
* The global mutable list `BOOKS` is threaded explicitly as a `List Book`
  argument and result.
* The Redis client is a `Backend`: an association list of key/value pairs
  plus an `up` flag.  A store call raises (modelling `redis.ConnectionError`,
  the store-unreachable failure) exactly when `up = false`; the decorator has
  no try/except, so the error propagates (`Except.error`), while the debug
  endpoint `list_redis_keys` catches it and folds it into a 200 body.
* Cached bytes are modelled by their decoded JSON value (`Json`): `set`
  stores the `json.dumps` rendering of a value, `get` returns those bytes and
  a hit returns `json.loads` of them, and `loads (dumps v) = v`.  Every
  `dumps` output is non-empty, so a present entry is truthy in
  `if cached_result:`.  Strings that occur inside stored values (the
  `result_list` elements, which are themselves `json.dumps` texts) are
  modelled explicitly via `dumpsBookDict`.
* `HTTPException(404)` is modelled by an `Option`-valued result component.
-/

/-- The `Book` class of `books2.py`: six attributes, set in `__init__` in
this order (which fixes the iteration order of `__dict__`). -/
structure Book where
  id : Int
  title : String
  author : String
  description : String
  rating : Int
  published_date : Int
deriving DecidableEq, Repr

/-- The pydantic request model `BookRequest`: `id` is `Optional[int]`.  The
field constraints (title length, rating bounds, ...) are enforced by the
transport layer before a handler runs and are stated as hypotheses where a
claim needs them. -/
structure BookRequest where
  id : Option Int
  title : String
  author : String
  description : String
  rating : Int
  published_date : Int
deriving DecidableEq, Repr

/-- JSON values, as produced by `json.dumps` and consumed by `json.loads`. -/
inductive Json where
  | null : Json
  | bool : Bool → Json
  | int : Int → Json
  | str : String → Json
  | arr : List Json → Json
  | obj : List (String × Json) → Json
deriving Repr

/- ---------------------------------------------------------------- -/
/- Catalog operations (handler bodies).                              -/
/- ---------------------------------------------------------------- -/

/-- `read_all_books` handler body: returns `BOOKS`. -/
def read_all_books (books : List Book) : List Book := books

/-- `read_book_by_rating` handler body: the loop over `BOOKS` appending the
entries with `rating <= book_rating` to `books_to_return`. -/
def read_book_by_rating (book_rating : Int) (books : List Book) : List Book :=
  books.foldl (fun acc book => if book.rating ≤ book_rating then acc ++ [book] else acc) []

/-- The scan of `read_book`: first entry with a matching id, else `none`
(modelling `HTTPException(404)`). -/
def read_book_scan (book_id : Int) : List Book → Option Book
  | [] => none
  | book :: rest => if book.id = book_id then some book else read_book_scan book_id rest

/-- `read_book` handler: a pure linear scan; the body never mutates `BOOKS`,
so the catalog component is passed through unchanged. -/
def read_book (book_id : Int) (books : List Book) : Option Book × List Book :=
  (read_book_scan book_id books, books)

/-- `find_book_id`: sets `book.id = 1 if len(BOOKS) == 0 else BOOKS[-1].id + 1`
and returns the (mutated) book. -/
def find_book_id (book : Book) (books : List Book) : Book :=
  { book with id := match books.getLast? with | none => 1 | some last => last.id + 1 }

/-- `create_book` handler body: builds `Book(**book_request.model_dump())`
(the request's optional `id` is immediately overwritten inside
`find_book_id`, so the transient value is modelled as `0`), assigns the id,
appends the assigned book to `BOOKS` and returns it. -/
def create_book (book_request : BookRequest) (books : List Book) : Book × List Book :=
  let new_book : Book :=
    { id := 0, title := book_request.title, author := book_request.author,
      description := book_request.description, rating := book_request.rating,
      published_date := book_request.published_date }
  let assigned := find_book_id new_book books
  (assigned, books ++ [assigned])

/-- One pass of `update_book`'s loop: every entry whose `id` equals the
request's `id` is overwritten with the request object (the loop has no
`break`); the flag records `book_changed`.  Python stores the `BookRequest`
object itself into `BOOKS`; the stored object is modelled as a `Book`
carrying the request's fields (its `id` equals the matched entry's id, which
is the integer inside the request's `Optional[int]`). -/
def update_book_scan (book : BookRequest) : List Book → List Book × Bool
  | [] => ([], false)
  | entry :: rest =>
    let (rest', changed) := update_book_scan book rest
    if some entry.id = book.id then
      ({ id := entry.id, title := book.title, author := book.author,
         description := book.description, rating := book.rating,
         published_date := book.published_date } :: rest', true)
    else
      (entry :: rest', changed)

/-- `update_book` handler: `none` in the first component models raising
`HTTPException(404)` (performed after the loop, when nothing matched). -/
def update_book (book : BookRequest) (books : List Book) : Option Unit × List Book :=
  let (books', book_changed) := update_book_scan book books
  (if book_changed then some () else none, books')

/-- The scan of `delete_book`'s loop: pop the first matching entry and
`break`; `none` when nothing matched. -/
def delete_book_scan (book_id : Int) : List Book → Option (List Book)
  | [] => none
  | entry :: rest =>
    if entry.id = book_id then some rest
    else (delete_book_scan book_id rest).map (entry :: ·)

/-- `delete_book` handler: `none` in the first component models raising
`HTTPException(404)`. -/
def delete_book (book_id : Int) (books : List Book) : Option Unit × List Book :=
  match delete_book_scan book_id books with
  | some books' => (some (), books')
  | none => (none, books)

/- ---------------------------------------------------------------- -/
/- Decimal rendering (shared by Python repr and JSON number output). -/
/- ---------------------------------------------------------------- -/

/-- Decimal digits of `n`, most significant first.  Written with a fuel
argument so that it is structurally recursive (hence computable by kernel
reduction); `natDec` supplies fuel `n + 1`, which always suffices. -/
def decDigitsGo : Nat → Nat → List Char
  | 0, _ => []
  | fuel + 1, n =>
    if n < 10 then [Nat.digitChar n]
    else decDigitsGo fuel (n / 10) ++ [Nat.digitChar (n % 10)]

/-- Decimal rendering of a natural number. -/
def natDec (n : Nat) : List Char := decDigitsGo (n + 1) n

/-- Decimal rendering of an integer, as Python's `str`/`repr` and
`json.dumps` render an `int`: a minus sign for negatives, no sign
otherwise. -/
def intDec (i : Int) : List Char :=
  if i < 0 then '-' :: natDec i.natAbs else natDec i.toNat

/- ---------------------------------------------------------------- -/
/- `json.dumps` of the values this program stores.                   -/
/- ---------------------------------------------------------------- -/

/-- Escaping of one character inside a JSON string literal as done by
`json.dumps`: the double quote and the backslash are escaped; other
characters are rendered literally (control characters, which `json.dumps`
also escapes, do not affect the properties proved here and are not
modelled). -/
def jsonEscChar (c : Char) : List Char :=
  if c = '"' then ['\\', '"'] else if c = '\\' then ['\\', '\\'] else [c]

/-- Escaping of a character list, character by character. -/
def jsonEscList : List Char → List Char
  | [] => []
  | c :: cs => jsonEscChar c ++ jsonEscList cs

/-- `json.dumps` of a Python `str`. -/
def jsonStr (s : String) : String := ⟨'"' :: (jsonEscList s.data ++ ['"'])⟩

/-- `json.dumps(book.__dict__)`: the six attributes in `__init__` insertion
order, with the default `", "` item and `": "` key separators. -/
def dumpsBookDict (b : Book) : String :=
  "\x7b\"id\": " ++ ⟨intDec b.id⟩ ++
  ", \"title\": " ++ jsonStr b.title ++
  ", \"author\": " ++ jsonStr b.author ++
  ", \"description\": " ++ jsonStr b.description ++
  ", \"rating\": " ++ ⟨intDec b.rating⟩ ++
  ", \"published_date\": " ++ ⟨intDec b.published_date⟩ ++ "\x7d"

/-- The decoded JSON value of `book.__dict__`, i.e. `json.loads` of
`dumpsBookDict b`: the field mapping of the entity. -/
def bookDict (b : Book) : Json :=
  .obj [("id", .int b.id), ("title", .str b.title), ("author", .str b.author),
        ("description", .str b.description), ("rating", .int b.rating),
        ("published_date", .int b.published_date)]

/-- The decoded JSON value of `json.dumps(result_list)` for a handler result
that is a list of `N` books: a JSON array whose elements are JSON *strings*
(each element of `result_list` is itself a `json.dumps` text). -/
def serializeBooks (bs : List Book) : Json :=
  .arr (bs.map (fun b => .str (dumpsBookDict b)))

/- ---------------------------------------------------------------- -/
/- Python repr of the argument values that reach the decorator.      -/
/- ---------------------------------------------------------------- -/

/-- Escaping of one character inside a Python `repr` string literal: the
single quote and the backslash are escaped; other characters are rendered
literally. -/
def pyEscChar (c : Char) : List Char :=
  if c = '\'' then ['\\', '\''] else if c = '\\' then ['\\', '\\'] else [c]

/-- Escaping of a character list, character by character. -/
def pyEscList : List Char → List Char
  | [] => []
  | c :: cs => pyEscChar c ++ pyEscList cs

/-- Python `repr` of a `str`: a single-quote delimited literal with the
quote and backslash escaped.  (CPython also escapes control characters and
prefers a double-quote delimiter for strings containing a single quote but
no double quote; these variations of the rendering are cosmetic for the
properties proved here and are not modelled.) -/
def pyStrRepr (s : String) : String := ⟨'\'' :: (pyEscList s.data ++ ['\''])⟩

/-- Python `repr` of an `int`. -/
def pyIntRepr (i : Int) : String := ⟨intDec i⟩

/-- Python `repr` of an `Optional[int]`: `None` or the integer. -/
def pyOptIntRepr : Option Int → String
  | none => "None"
  | some i => pyIntRepr i

/-- Pydantic `repr` of a `BookRequest` instance: class name and the fields
in declaration order, each rendered with `repr`. -/
def pyBookRequestRepr (r : BookRequest) : String :=
  "BookRequest(id=" ++ pyOptIntRepr r.id ++
  ", title=" ++ pyStrRepr r.title ++
  ", author=" ++ pyStrRepr r.author ++
  ", description=" ++ pyStrRepr r.description ++
  ", rating=" ++ pyIntRepr r.rating ++
  ", published_date=" ++ pyIntRepr r.published_date ++ ")"

/- ---------------------------------------------------------------- -/
/- The wrapped handler calls and their cache keys.                   -/
/- ---------------------------------------------------------------- -/

/-- A call to one of the three handlers wrapped by `@cache_response(600)`,
together with its argument values.  FastAPI resolves an endpoint's
parameters and invokes the wrapped function with keyword arguments (it
inspects the original signature through `functools.wraps`), so inside
`wrapper` the tuple `args` is `()` and `kwargs` is the parameter mapping. -/
inductive HandlerCall where
  | read_all_books : HandlerCall
  | read_book_by_rating (book_rating : Int) : HandlerCall
  | create_book (book_request : BookRequest) : HandlerCall
deriving DecidableEq, Repr

/-- The decorator's cache key `f"{func.__name__}:{args}:{kwargs}"`, with
`args = ()` and `kwargs` the keyword-argument mapping rendered as Python
renders a `dict` (repr of keys and of values, insertion order — here a
single parameter, so the order is fixed). -/
def cacheKey : HandlerCall → String
  | .read_all_books => "read_all_books:():\x7b\x7d"
  | .read_book_by_rating r =>
    "read_book_by_rating:():\x7b'book_rating': " ++ pyIntRepr r ++ "\x7d"
  | .create_book req =>
    "create_book:():\x7b'book_request': " ++ pyBookRequestRepr req ++ "\x7d"

/-- The dynamic shape of a wrapped handler's return value, as tested by
`isinstance(result, list)`. -/
inductive HandlerResult where
  | single : Book → HandlerResult
  | list : List Book → HandlerResult

/-- Dispatch of `await func(*args, **kwargs)`: runs the wrapped handler's
body on the current catalog, returning its result and the new catalog. -/
def handlerBody : HandlerCall → List Book → HandlerResult × List Book
  | .read_all_books, books => (.list (read_all_books books), books)
  | .read_book_by_rating r, books => (.list (read_book_by_rating r books), books)
  | .create_book req, books =>
    let (new_book, books') := create_book req books
    (.single new_book, books')

/- ---------------------------------------------------------------- -/
/- The Redis backend.                                                -/
/- ---------------------------------------------------------------- -/

/-- The Redis store: its current contents (an association list of keys to
the decoded values of the stored bytes) and whether the server is
reachable.  Key expiry is passive (a TTL set by `expire` is never read back
by this program), so TTL bookkeeping is not part of the state. -/
structure Backend where
  up : Bool
  data : List (String × Json)
deriving Repr

/-- The error description of a failed connection attempt
(`redis.ConnectionError`). -/
def connectionErrorMsg : String :=
  "Error connecting to localhost:6379. Connection refused."

/-- Replace the value under `key`, or append the binding if absent. -/
def setAssoc (key : String) (v : Json) : List (String × Json) → List (String × Json)
  | [] => [(key, v)]
  | (k, w) :: rest => if k = key then (key, v) :: rest else (k, w) :: setAssoc key v rest

/-- `redis_client.get(key)`: raises when the store is unreachable. -/
def bGet (be : Backend) (key : String) : Except String (Option Json) :=
  if be.up then .ok (be.data.lookup key) else .error connectionErrorMsg

/-- `redis_client.set(key, value)`: raises when the store is unreachable. -/
def bSet (be : Backend) (key : String) (v : Json) : Except String Backend :=
  if be.up then .ok { be with data := setAssoc key v be.data } else .error connectionErrorMsg

/-- `redis_client.expire(key, ttl)`: raises when the store is unreachable;
otherwise only TTL bookkeeping, which is passive (see `Backend`). -/
def bExpire (be : Backend) (_key : String) (_ttl : Nat) : Except String Backend :=
  if be.up then .ok be else .error connectionErrorMsg

/-- `redis_client.keys("*")`: all current keys. -/
def bKeys (be : Backend) : Except String (List String) :=
  if be.up then .ok (be.data.map (·.1)) else .error connectionErrorMsg

/-- One observable store mutation performed by the decorator. -/
inductive KVOp where
  | set : String → Json → KVOp
  | expire : String → Nat → KVOp

/-- A Python value returned by the decorator's `wrapper` to the transport
layer. -/
inductive PyVal where
  | json : Json → PyVal
  | book : Book → PyVal
  | strList : List String → PyVal

/- ---------------------------------------------------------------- -/
/- The response-cache decorator.                                     -/
/- ---------------------------------------------------------------- -/

/-- The sequence-store loop of `wrapper`: for each element, append its
`json.dumps` text to `result_list`, then `set` the key to
`json.dumps(result_list)` (decoded: an array of strings) and `expire` it.
Returns the final `result_list`, the store state and the list of store
mutations in order. -/
def storeLoop (key : String) (ttl : Nat) (result_list : List String) :
    List Book → Backend → Except String (List String × Backend × List KVOp)
  | [], be => .ok (result_list, be, [])
  | b :: rest, be =>
    let result_list' := result_list ++ [dumpsBookDict b]
    match bSet be key (.arr (result_list'.map Json.str)) with
    | .error e => .error e
    | .ok be1 =>
      match bExpire be1 key ttl with
      | .error e => .error e
      | .ok be2 =>
        match storeLoop key ttl result_list' rest be2 with
        | .error e => .error e
        | .ok (fin, be3, ops) =>
          .ok (fin, be3,
               KVOp.set key (.arr (result_list'.map Json.str)) :: KVOp.expire key ttl :: ops)

/-- The decorator `cache_response(ttl_seconds)` applied to a handler: the
inner `wrapper`.  Derive the key; `get`; on a hit return the decoded cached
payload without running the handler; on a miss run the handler, then store
its serialized result (per-element for a list result, once for a single
entity) and return it.  No store error is caught.  The last component is
the ordered list of store mutations performed. -/
def cacheWrapper (ttl_seconds : Nat) (c : HandlerCall) (books : List Book) (be : Backend) :
    Except String (PyVal × List Book × Backend × List KVOp) :=
  let key := cacheKey c
  match bGet be key with
  | .error e => .error e
  | .ok (some cached_result) => .ok (.json cached_result, books, be, [])
  | .ok none =>
    let (result, books') := handlerBody c books
    match result with
    | .list bs =>
      match storeLoop key ttl_seconds [] bs be with
      | .error e => .error e
      | .ok (result_list, be', ops) => .ok (.strList result_list, books', be', ops)
    | .single b =>
      match bSet be key (bookDict b) with
      | .error e => .error e
      | .ok be1 =>
        match bExpire be1 key ttl_seconds with
        | .error e => .error e
        | .ok be2 =>
          .ok (.book b, books', be2,
               [KVOp.set key (bookDict b), KVOp.expire key ttl_seconds])

/-- Debug endpoint `GET /redis/keys`: returns (status, body).  Its
try/except turns a backend error into a normal 200 body carrying the error
description; on success the body lists the keys. -/
def list_redis_keys (be : Backend) : Nat × Json :=
  match bKeys be with
  | .ok keys => (200, .obj [("keys", .arr (keys.map Json.str))])
  | .error e => (200, .obj [("error", .str e)])

/-- The sequence of store mutations performed by `storeLoop` starting from
an accumulated `result_list`. -/
def traceFor (key : String) (ttl : Nat) (acc : List String) : List Book → List KVOp
  | [] => []
  | b :: rest =>
    KVOp.set key (.arr ((acc ++ [dumpsBookDict b]).map Json.str))
      :: KVOp.expire key ttl
      :: traceFor key ttl (acc ++ [dumpsBookDict b]) rest

/- ---------------------------------------------------------------- -/
/- Decoders for the cache-key rendering.  The key derivation is      -/
/- proved injective by exhibiting a parser that recovers the call    -/
/- from its key (unique decodability of the rendering).              -/
/- ---------------------------------------------------------------- -/

/-- Consume an expected literal prefix; return the remainder. -/
def parseLit : List Char → List Char → Option (List Char)
  | [], input => some input
  | _ :: _, [] => none
  | c :: cs, d :: ds => if c = d then parseLit cs ds else none

/-- Split off the leading run of decimal digits. -/
def parseDigits : List Char → List Char × List Char
  | [] => ([], [])
  | c :: rest =>
    if c.isDigit then
      let p := parseDigits rest
      (c :: p.1, p.2)
    else ([], c :: rest)

/-- Decode a run of decimal digits (at least one) as a natural number. -/
def parseNat (input : List Char) : Option (Nat × List Char) :=
  let p := parseDigits input
  if p.1.isEmpty then none
  else some (p.1.foldl (fun acc c => acc * 10 + (c.toNat - 48)) 0, p.2)

/-- Decode an optionally minus-signed decimal integer. -/
def parseInt (input : List Char) : Option (Int × List Char) :=
  if input.head? = some '-' then
    (parseNat input.tail).map (fun p => (-(p.1 : Int), p.2))
  else
    (parseNat input).map (fun p => ((p.1 : Int), p.2))

/-- Decode the body of a quote-delimited, backslash-escaped string literal,
up to the closing quote. -/
def parseQuotedBody : List Char → Option (List Char × List Char)
  | [] => none
  | c :: rest =>
    if c = '\\' then
      match rest with
      | [] => none
      | d :: rest' => (parseQuotedBody rest').map (fun p => (d :: p.1, p.2))
    else if c = '\'' then some ([], rest)
    else (parseQuotedBody rest).map (fun p => (c :: p.1, p.2))

/-- Decode a `pyStrRepr`-shaped string literal. -/
def parseQuoted : List Char → Option (String × List Char)
  | [] => none
  | c :: rest =>
    if c = '\'' then (parseQuotedBody rest).map (fun p => (⟨p.1⟩, p.2)) else none

/-- Decode a `pyOptIntRepr`-shaped value: `None` or an integer. -/
def parseOptInt (input : List Char) : Option (Option Int × List Char) :=
  match parseLit "None".data input with
  | some rest => some (none, rest)
  | none => (parseInt input).map (fun p => (some p.1, p.2))

/-- Decode a `pyBookRequestRepr`-shaped rendering of a `BookRequest`. -/
def parseBookRequest (input : List Char) : Option (BookRequest × List Char) := do
  let r1 ← parseLit "BookRequest(id=".data input
  let (id, r2) ← parseOptInt r1
  let r3 ← parseLit ", title=".data r2
  let (title, r4) ← parseQuoted r3
  let r5 ← parseLit ", author=".data r4
  let (author, r6) ← parseQuoted r5
  let r7 ← parseLit ", description=".data r6
  let (description, r8) ← parseQuoted r7
  let r9 ← parseLit ", rating=".data r8
  let (rating, r10) ← parseInt r9
  let r11 ← parseLit ", published_date=".data r10
  let (published_date, r12) ← parseInt r11
  let r13 ← parseLit ")".data r12
  pure (⟨id, title, author, description, rating, published_date⟩, r13)

/-- Decode a rating-endpoint cache key. -/
def parseCallRating (input : List Char) : Option HandlerCall := do
  let r1 ← parseLit "read_book_by_rating:():\x7b'book_rating': ".data input
  let p ← parseInt r1
  if p.2 = ['\x7d'] then pure (.read_book_by_rating p.1) else none

/-- Decode a create-endpoint cache key. -/
def parseCallCreate (input : List Char) : Option HandlerCall := do
  let r1 ← parseLit "create_book:():\x7b'book_request': ".data input
  let p ← parseBookRequest r1
  if p.2 = ['\x7d'] then pure (.create_book p.1) else none

/-- Decode a full cache key back into the handler call it was derived
from. -/
def parseCall (input : List Char) : Option HandlerCall :=
  if input = "read_all_books:():\x7b\x7d".data then some .read_all_books
  else (parseCallRating input).orElse (fun _ => parseCallCreate input)

theorem parseLit_append (lit rest : List Char) : parseLit lit (lit ++ rest) = some rest := by
  induction lit with
  | nil => rfl
  | cons c cs ih => simp [parseLit, ih]

theorem parseLit_none_head (a : Char) (as : List Char) (b : Char) (bs : List Char)
    (h : a ≠ b) : parseLit (a :: as) (b :: bs) = none := by
  simp [parseLit, h]

theorem digitChar_isDigit (d : Nat) (h : d < 10) : (Nat.digitChar d).isDigit = true := by
  revert h; revert d; decide

theorem digitChar_val (d : Nat) (h : d < 10) : (Nat.digitChar d).toNat - 48 = d := by
  revert h; revert d; decide

theorem decDigitsGo_digits (fuel : Nat) :
    ∀ n, n < fuel → ∀ c ∈ decDigitsGo fuel n, c.isDigit = true := by
  induction fuel with
  | zero => intro n h; omega
  | succ fuel ih =>
    intro n h c hc
    by_cases h10 : n < 10
    · simp [decDigitsGo, h10] at hc
      subst hc; exact digitChar_isDigit n h10
    · simp [decDigitsGo, h10] at hc
      rcases hc with hc | hc
      · have hlt : n / 10 < fuel := by
          have : n / 10 < n := Nat.div_lt_self (by omega) (by omega)
          omega
        exact ih (n / 10) hlt c hc
      · subst hc; exact digitChar_isDigit (n % 10) (Nat.mod_lt n (by omega))

theorem decDigitsGo_ne_nil (fuel n : Nat) (h : n < fuel) : decDigitsGo fuel n ≠ [] := by
  cases fuel with
  | zero => omega
  | succ fuel =>
    by_cases h10 : n < 10 <;> simp [decDigitsGo, h10]

theorem decDigitsGo_foldl (fuel : Nat) :
    ∀ n, n < fuel → ∀ a : Nat,
      (decDigitsGo fuel n).foldl (fun acc c => acc * 10 + (c.toNat - 48)) a
        = a * 10 ^ (decDigitsGo fuel n).length + n := by
  induction fuel with
  | zero => intro n h; omega
  | succ fuel ih =>
    intro n h a
    by_cases h10 : n < 10
    · simp [decDigitsGo, h10, digitChar_val n h10]
    · have hlt : n / 10 < fuel := by
        have : n / 10 < n := Nat.div_lt_self (by omega) (by omega)
        omega
      simp only [decDigitsGo, if_neg h10, List.foldl_append, List.length_append,
        List.foldl_cons, List.foldl_nil, List.length_cons, List.length_nil]
      rw [ih (n / 10) hlt a, digitChar_val (n % 10) (Nat.mod_lt n (by omega))]
      calc (a * 10 ^ (decDigitsGo fuel (n / 10)).length + n / 10) * 10 + n % 10
          = a * (10 ^ (decDigitsGo fuel (n / 10)).length * 10) + (10 * (n / 10) + n % 10) := by
            ring
        _ = a * 10 ^ ((decDigitsGo fuel (n / 10)).length + 1) + n := by
            rw [Nat.div_add_mod, pow_succ]


theorem parseDigits_append (ds rest : List Char) (hds : ∀ c ∈ ds, c.isDigit = true)
    (hrest : ∀ c, rest.head? = some c → c.isDigit = false) :
    parseDigits (ds ++ rest) = (ds, rest) := by
  induction ds with
  | nil =>
    cases rest with
    | nil => rfl
    | cons c t =>
      have hc : c.isDigit = false := hrest c rfl
      simp [parseDigits, hc]
  | cons d ds ih =>
    have hd : d.isDigit = true := hds d (by simp)
    have ih' := ih (fun c hc => hds c (by simp [hc]))
    simp [parseDigits, hd, ih']

theorem natDec_foldl (n : Nat) :
    (natDec n).foldl (fun acc c => acc * 10 + (c.toNat - 48)) 0 = n := by
  have h := decDigitsGo_foldl (n + 1) n (Nat.lt_succ_self n) 0
  simpa [natDec] using h

theorem natDec_digits (n : Nat) : ∀ c ∈ natDec n, c.isDigit = true :=
  decDigitsGo_digits (n + 1) n (Nat.lt_succ_self n)

theorem natDec_ne_nil (n : Nat) : natDec n ≠ [] :=
  decDigitsGo_ne_nil (n + 1) n (Nat.lt_succ_self n)

theorem parseNat_append (n : Nat) (rest : List Char)
    (hrest : ∀ c, rest.head? = some c → c.isDigit = false) :
    parseNat (natDec n ++ rest) = some (n, rest) := by
  have hd := parseDigits_append (natDec n) rest (natDec_digits n) hrest
  have hne : (natDec n).isEmpty = false := by
    cases h : natDec n with
    | nil => exact absurd h (natDec_ne_nil n)
    | cons a l => rfl
  simp only [parseNat, hd, hne, Bool.false_eq_true, if_false, natDec_foldl n]

theorem natDec_head_not (n : Nat) (c : Char) (hc : c.isDigit = false) :
    (natDec n).head? ≠ some c := by
  cases h : natDec n with
  | nil => simp
  | cons a l =>
    have ha : a.isDigit = true := natDec_digits n a (by rw [h]; simp)
    simp only [List.head?_cons, ne_eq, Option.some.injEq]
    intro hac
    rw [hac] at ha
    rw [ha] at hc
    exact absurd hc (by simp)

theorem parseInt_append (i : Int) (rest : List Char)
    (hrest : ∀ c, rest.head? = some c → c.isDigit = false) :
    parseInt (intDec i ++ rest) = some (i, rest) := by
  by_cases hi : i < 0
  · have hd : intDec i = '-' :: natDec i.natAbs := by simp [intDec, hi]
    rw [hd]
    simp only [parseInt, List.cons_append, List.head?_cons, List.tail_cons, if_pos rfl]
    rw [parseNat_append i.natAbs rest hrest]
    have hv : -((i.natAbs : Nat) : Int) = i := by omega
    simp only [Option.map_some']
    rw [hv]
    simp
  · have hd : intDec i = natDec i.toNat := by simp [intDec, hi]
    rw [hd]
    have hne : ((natDec i.toNat ++ rest).head? = some '-') = False := by
      cases h : natDec i.toNat with
      | nil => exact absurd h (natDec_ne_nil i.toNat)
      | cons a l =>
        have := natDec_head_not i.toNat '-' (by decide)
        rw [h] at this
        simp only [List.cons_append, List.head?_cons]
        simp only [List.head?_cons] at this
        simp [fun h => this h]
    simp only [parseInt, hne, if_false]
    rw [parseNat_append i.toNat rest hrest]
    have hv : ((i.toNat : Nat) : Int) = i := by omega
    simp only [Option.map_some']
    rw [hv]


theorem parseQuotedBody_cons (c : Char) (rest : List Char) :
    parseQuotedBody (c :: rest)
      = if c = '\\' then
          (match rest with
           | [] => none
           | d :: rest' => (parseQuotedBody rest').map (fun p => (d :: p.1, p.2)))
        else if c = '\'' then some ([], rest)
        else (parseQuotedBody rest).map (fun p => (c :: p.1, p.2)) := by
  rw [parseQuotedBody.eq_def]

theorem parseQuotedBody_esc (d : Char) (rest : List Char) :
    parseQuotedBody ('\\' :: d :: rest)
      = (parseQuotedBody rest).map (fun p => (d :: p.1, p.2)) := by
  rfl

theorem parseQuotedBody_quote (rest : List Char) :
    parseQuotedBody ('\'' :: rest) = some ([], rest) := by
  rw [parseQuotedBody_cons, if_neg (by decide), if_pos rfl]

theorem parseQuotedBody_other (c : Char) (rest : List Char) (h1 : c ≠ '\\') (h2 : c ≠ '\'') :
    parseQuotedBody (c :: rest)
      = (parseQuotedBody rest).map (fun p => (c :: p.1, p.2)) := by
  rw [parseQuotedBody_cons, if_neg h1, if_neg h2]

theorem parseQuotedBody_append (l rest : List Char) :
    parseQuotedBody (pyEscList l ++ '\'' :: rest) = some (l, rest) := by
  induction l with
  | nil => exact parseQuotedBody_quote rest
  | cons c cs ih =>
    by_cases h1 : c = '\\'
    · subst h1
      have he : pyEscList ('\\' :: cs) = '\\' :: '\\' :: pyEscList cs := by
        simp [pyEscList, pyEscChar]
      rw [he, List.cons_append, List.cons_append, parseQuotedBody_esc, ih]
      rfl
    · by_cases h2 : c = '\''
      · subst h2
        have he : pyEscList ('\'' :: cs) = '\\' :: '\'' :: pyEscList cs := by
          simp [pyEscList, pyEscChar]
        rw [he, List.cons_append, List.cons_append, parseQuotedBody_esc, ih]
        rfl
      · have he : pyEscList (c :: cs) = c :: pyEscList cs := by
          simp [pyEscList, pyEscChar, h1, h2]
        rw [he, List.cons_append, parseQuotedBody_other c _ h1 h2, ih]
        rfl

theorem string_mk_data (s : String) : (⟨s.data⟩ : String) = s := rfl

theorem parseQuoted_append (s : String) (rest : List Char) :
    parseQuoted ((pyStrRepr s).data ++ rest) = some (s, rest) := by
  have hd : (pyStrRepr s).data ++ rest = '\'' :: (pyEscList s.data ++ '\'' :: rest) := by
    show ('\'' :: (pyEscList s.data ++ ['\''])) ++ rest = _
    simp
  rw [hd, parseQuoted, if_pos rfl, parseQuotedBody_append]
  rfl

theorem parseOptInt_append (oi : Option Int) (rest : List Char)
    (hrest : ∀ c, rest.head? = some c → c.isDigit = false) :
    parseOptInt ((pyOptIntRepr oi).data ++ rest) = some (oi, rest) := by
  cases oi with
  | none =>
    have hd : (pyOptIntRepr none).data = "None".data := rfl
    rw [hd]
    simp only [parseOptInt]
    rw [parseLit_append "None".data rest]
  | some i =>
    have hd : (pyOptIntRepr (some i)).data = intDec i := rfl
    rw [hd]
    have hfail : parseLit "None".data (intDec i ++ rest) = none := by
      by_cases hi : i < 0
      · have h2 : intDec i = '-' :: natDec i.natAbs := by simp [intDec, hi]
        rw [h2]
        have hN : "None".data = 'N' :: "one".data := rfl
        rw [hN]
        exact parseLit_none_head 'N' _ '-' _ (by decide)
      · have h2 : intDec i = natDec i.toNat := by simp [intDec, hi]
        rw [h2]
        cases h : natDec i.toNat with
        | nil => exact absurd h (natDec_ne_nil i.toNat)
        | cons a l =>
          have ha : a.isDigit = true := natDec_digits i.toNat a (by rw [h]; simp)
          have hN : "None".data = 'N' :: "one".data := rfl
          rw [hN]
          simp only [List.cons_append]
          refine parseLit_none_head 'N' _ a _ ?_
          intro hNa
          rw [← hNa] at ha
          exact absurd ha (by decide)
    simp only [parseOptInt, hfail]
    rw [parseInt_append i rest hrest]
    rfl

theorem head_not_digit_append (s : String) (y : List Char) (a : Char) (t : List Char)
    (hs : s.data = a :: t) (ha : a.isDigit = false) :
    ∀ c, (s.data ++ y).head? = some c → c.isDigit = false := by
  intro c h
  rw [hs] at h
  simp only [List.cons_append, List.head?_cons, Option.some.injEq] at h
  subst h
  exact ha

theorem parseBookRequest_append (req : BookRequest) (rest : List Char) :
    parseBookRequest ((pyBookRequestRepr req).data ++ rest) = some (req, rest) := by
  have hdata : (pyBookRequestRepr req).data ++ rest
      = "BookRequest(id=".data ++ ((pyOptIntRepr req.id).data ++ (", title=".data ++
        ((pyStrRepr req.title).data ++ (", author=".data ++ ((pyStrRepr req.author).data ++
        (", description=".data ++ ((pyStrRepr req.description).data ++ (", rating=".data ++
        (intDec req.rating ++ (", published_date=".data ++ (intDec req.published_date ++
        (")".data ++ rest)))))))))))) := by
    simp only [pyBookRequestRepr, pyIntRepr, String.data_append, List.append_assoc]
  rw [hdata]
  rw [parseBookRequest]
  rw [parseLit_append]
  simp only [Option.bind_eq_bind, Option.some_bind]
  rw [parseOptInt_append req.id _ (head_not_digit_append ", title=" _ ',' _ rfl (by decide))]
  simp only [Option.bind_eq_bind, Option.some_bind]
  rw [parseLit_append]
  simp only [Option.bind_eq_bind, Option.some_bind]
  rw [parseQuoted_append]
  simp only [Option.bind_eq_bind, Option.some_bind]
  rw [parseLit_append]
  simp only [Option.bind_eq_bind, Option.some_bind]
  rw [parseQuoted_append]
  simp only [Option.bind_eq_bind, Option.some_bind]
  rw [parseLit_append]
  simp only [Option.bind_eq_bind, Option.some_bind]
  rw [parseQuoted_append]
  simp only [Option.bind_eq_bind, Option.some_bind]
  rw [parseLit_append]
  simp only [Option.bind_eq_bind, Option.some_bind]
  rw [parseInt_append req.rating _
    (head_not_digit_append ", published_date=" _ ',' _ rfl (by decide))]
  simp only [Option.bind_eq_bind, Option.some_bind]
  rw [parseLit_append]
  simp only [Option.bind_eq_bind, Option.some_bind]
  rw [parseInt_append req.published_date _ (head_not_digit_append ")" _ ')' _ rfl (by decide))]
  simp only [Option.bind_eq_bind, Option.some_bind]
  rw [parseLit_append]
  rfl

theorem head_not_digit_close (a : Char) (ha : a.isDigit = false) (l : List Char) :
    ∀ c, (a :: l).head? = some c → c.isDigit = false := by
  intro c h
  simp only [List.head?_cons, Option.some.injEq] at h
  subst h
  exact ha

theorem parseCall_read_all :
    parseCall (cacheKey .read_all_books).data = some .read_all_books := by
  rfl

theorem parseCall_rating (r : Int) :
    parseCall (cacheKey (.read_book_by_rating r)).data
      = some (.read_book_by_rating r) := by
  have hdata : (cacheKey (.read_book_by_rating r)).data
      = "read_book_by_rating:():\x7b'book_rating': ".data ++ (intDec r ++ ['\x7d']) := by
    simp only [cacheKey, pyIntRepr, String.data_append, List.append_assoc]
  have hL : ("read_book_by_rating:():\x7b'book_rating': ".data
      ++ (intDec r ++ ['\x7d'])).get? 5 = some 'b' := rfl
  have hne : "read_book_by_rating:():\x7b'book_rating': ".data ++ (intDec r ++ ['\x7d'])
      ≠ "read_all_books:():\x7b\x7d".data := by
    intro h
    rw [h] at hL
    exact absurd hL (by decide)
  rw [hdata]
  unfold parseCall
  rw [if_neg hne]
  unfold parseCallRating
  rw [parseLit_append]
  simp only [Option.bind_eq_bind, Option.some_bind]
  rw [parseInt_append r _ (head_not_digit_close '\x7d' (by decide) [])]
  simp only [Option.bind_eq_bind, Option.some_bind]
  rfl

theorem parseCall_create (req : BookRequest) :
    parseCall (cacheKey (.create_book req)).data = some (.create_book req) := by
  have hdata : (cacheKey (.create_book req)).data
      = "create_book:():\x7b'book_request': ".data
        ++ ((pyBookRequestRepr req).data ++ ['\x7d']) := by
    simp only [cacheKey, String.data_append, List.append_assoc]
  have hL : ("create_book:():\x7b'book_request': ".data
      ++ ((pyBookRequestRepr req).data ++ ['\x7d'])).get? 0 = some 'c' := rfl
  have hne : "create_book:():\x7b'book_request': ".data
      ++ ((pyBookRequestRepr req).data ++ ['\x7d'])
      ≠ "read_all_books:():\x7b\x7d".data := by
    intro h
    rw [h] at hL
    exact absurd hL (by decide)
  have hfail : parseCallRating ("create_book:():\x7b'book_request': ".data
      ++ ((pyBookRequestRepr req).data ++ ['\x7d'])) = none := by
    unfold parseCallRating
    have : parseLit "read_book_by_rating:():\x7b'book_rating': ".data
        ("create_book:():\x7b'book_request': ".data
          ++ ((pyBookRequestRepr req).data ++ ['\x7d'])) = none := rfl
    rw [this]
    rfl
  rw [hdata]
  unfold parseCall
  rw [if_neg hne]
  rw [hfail]
  show parseCallCreate _ = _
  unfold parseCallCreate
  rw [parseLit_append]
  simp only [Option.bind_eq_bind, Option.some_bind]
  rw [parseBookRequest_append]
  simp only [Option.bind_eq_bind, Option.some_bind]
  rfl

theorem parseCall_cacheKey (c : HandlerCall) : parseCall (cacheKey c).data = some c := by
  cases c with
  | read_all_books => exact parseCall_read_all
  | read_book_by_rating r => exact parseCall_rating r
  | create_book req => exact parseCall_create req

/-- C2: cache-key determinism.  The derived key is a function of the
handler name and the argument values alone (so deriving it twice for the
same call yields identical keys, stably across runs — no object identity or
unstable iteration order is involved), and calls whose argument values
differ derive different keys: `cacheKey` is injective, shown by the
round-trip through `parseCall`. -/
theorem c2_cache_key_determinism (c1 c2 : HandlerCall) :
    cacheKey c1 = cacheKey c2 ↔ c1 = c2 := by
  constructor
  · intro h
    have h1 := parseCall_cacheKey c1
    rw [congrArg String.data h, parseCall_cacheKey c2] at h1
    exact (Option.some.injEq c2 c1).mp h1 |>.symm
  · intro h
    rw [h]

/- ---------------------------------------------------------------- -/
/- Helper lemmas about the catalog operations.                       -/
/- ---------------------------------------------------------------- -/

theorem update_book_scan_fst (req : BookRequest) (books : List Book) :
    (update_book_scan req books).1
      = books.map (fun b =>
          if some b.id = req.id then
            { id := b.id, title := req.title, author := req.author,
              description := req.description, rating := req.rating,
              published_date := req.published_date }
          else b) := by
  induction books with
  | nil => rfl
  | cons b rest ih =>
    by_cases hm : some b.id = req.id
    · simp [update_book_scan, hm, ← ih]
    · simp [update_book_scan, hm, ← ih]

theorem update_book_scan_snd (req : BookRequest) (books : List Book) :
    (update_book_scan req books).2 = false ↔ ∀ b ∈ books, ¬ some b.id = req.id := by
  induction books with
  | nil => simp [update_book_scan]
  | cons b rest ih =>
    by_cases hm : some b.id = req.id
    · simp [update_book_scan, hm]
    · simp [update_book_scan, hm, ih]

theorem foldl_filter_acc (p : Book → Bool) (books : List Book) :
    ∀ acc : List Book,
      books.foldl (fun acc b => if p b then acc ++ [b] else acc) acc
        = acc ++ books.filter p := by
  induction books with
  | nil => intro acc; simp
  | cons b rest ih =>
    intro acc
    by_cases hp : p b
    · simp [List.foldl_cons, hp, ih, List.filter_cons]
    · simp [List.foldl_cons, hp, ih, List.filter_cons]

/- ---------------------------------------------------------------- -/
/- Claim theorems.                                                   -/
/- ---------------------------------------------------------------- -/

/-- C1: hit bypass.  If the store is reachable and already holds a
(non-empty) entry under the call's derived cache key, then invoking any
wrapped operation — including the wrapped write operation `create_book` —
returns the deserialized cached payload, performs no store mutation, and
leaves the catalog `BOOKS` entirely unchanged (the wrapped handler body
never runs, so in particular `create` appends nothing). -/
theorem c1_hit_bypass (ttl : Nat) (c : HandlerCall) (books : List Book) (be : Backend)
    (v : Json) (hup : be.up = true) (hin : be.data.lookup (cacheKey c) = some v) :
    cacheWrapper ttl c books be = .ok (.json v, books, be, []) := by
  unfold cacheWrapper bGet
  rw [hup]
  simp [hin]

/-- Witness for C1: a concrete pre-populated entry under the `create_book`
key; the call returns the cached payload and the one-book catalog is
untouched. -/
theorem c1_hit_bypass_witness :
    (Backend.up ⟨true, [(cacheKey (.create_book ⟨none, "A new book", "roby", "d", 5, 2029⟩),
        Json.str "cached")]⟩ = true)
    ∧ cacheWrapper 600 (.create_book ⟨none, "A new book", "roby", "d", 5, 2029⟩)
        [⟨1, "t", "a", "d", 3, 2020⟩]
        ⟨true, [(cacheKey (.create_book ⟨none, "A new book", "roby", "d", 5, 2029⟩),
          Json.str "cached")]⟩
      = .ok (.json (Json.str "cached"), [⟨1, "t", "a", "d", 3, 2020⟩],
          ⟨true, [(cacheKey (.create_book ⟨none, "A new book", "roby", "d", 5, 2029⟩),
            Json.str "cached")]⟩, []) :=
  ⟨rfl, c1_hit_bypass 600 (.create_book ⟨none, "A new book", "roby", "d", 5, 2029⟩)
    [⟨1, "t", "a", "d", 3, 2020⟩] _ (Json.str "cached") rfl rfl⟩

/-- C6: id assignment.  `create_book` assigns `id = 1` on an empty catalog
and `id = (last element's id) + 1` otherwise; consequently, creating three
books (ids 1, 2, 3), deleting id 3 and creating a fourth assigns id 3
again. -/
theorem c6_id_assignment (req : BookRequest) (books : List Book) :
    (books = [] → (create_book req books).1.id = 1)
    ∧ (∀ last, books.getLast? = some last → (create_book req books).1.id = last.id + 1)
    ∧ (∀ r1 r2 r3 r4 : BookRequest,
        (create_book r4
          ((delete_book 3
            ((create_book r3
              ((create_book r2
                ((create_book r1 []).2)).2)).2)).2)).1.id = 3) := by
  refine ⟨?_, ?_, ?_⟩
  · intro h
    subst h
    rfl
  · intro last h
    simp [create_book, find_book_id, h]
  · intro r1 r2 r3 r4
    rfl

/-- Witness for C6 at concrete inputs: an empty catalog yields id 1, a
catalog ending in id 7 yields id 8, and the create/create/create/delete-3/
create sequence yields id 3. -/
theorem c6_id_assignment_witness :
    (create_book ⟨none, "t", "a", "d", 3, 2020⟩ []).1.id = 1
    ∧ (create_book ⟨none, "t", "a", "d", 3, 2020⟩ [⟨7, "x", "y", "z", 1, 2001⟩]).1.id = 7 + 1
    ∧ (create_book ⟨none, "d4", "d4", "d4", 4, 2024⟩
        ((delete_book 3
          ((create_book ⟨none, "c3", "c3", "c3", 3, 2023⟩
            ((create_book ⟨none, "b2", "b2", "b2", 2, 2022⟩
              ((create_book ⟨none, "a1", "a1", "a1", 1, 2021⟩ []).2)).2)).2)).2)).1.id = 3 :=
  ⟨(c6_id_assignment ⟨none, "t", "a", "d", 3, 2020⟩ []).1 rfl,
   (c6_id_assignment ⟨none, "t", "a", "d", 3, 2020⟩ [⟨7, "x", "y", "z", 1, 2001⟩]).2.1
     ⟨7, "x", "y", "z", 1, 2001⟩ rfl,
   (c6_id_assignment ⟨none, "t", "a", "d", 3, 2020⟩ []).2.2
     ⟨none, "a1", "a1", "a1", 1, 2021⟩ ⟨none, "b2", "b2", "b2", 2, 2022⟩
     ⟨none, "c3", "c3", "c3", 3, 2023⟩ ⟨none, "d4", "d4", "d4", 4, 2024⟩⟩

/-- C7 counterexample: on a catalog with two entries of id 1, `update_book`
with id 1 overwrites BOTH entries (its loop has no `break`), so the result
is not the claimed "first match replaced, all other entries unchanged". -/
theorem c7_counterexample :
    (update_book ⟨some 1, "c", "c", "c", 2, 2001⟩
        [⟨1, "a", "a", "a", 1, 2000⟩, ⟨1, "b", "b", "b", 1, 2000⟩]).2
      = [⟨1, "c", "c", "c", 2, 2001⟩, ⟨1, "c", "c", "c", 2, 2001⟩]
    ∧ (update_book ⟨some 1, "c", "c", "c", 2, 2001⟩
        [⟨1, "a", "a", "a", 1, 2000⟩, ⟨1, "b", "b", "b", 1, 2000⟩]).2
      ≠ [⟨1, "c", "c", "c", 2, 2001⟩, ⟨1, "b", "b", "b", 1, 2000⟩] := by
  constructor
  · rfl
  · decide

/-- C7 (amended): `update_book` replaces EVERY entry whose id matches the
request's id (the loop has no `break`) with the request's fields, leaves
non-matching entries unchanged, succeeds when some entry matches, and fails
with NotFound (404) if and only if no entry's id matches. -/
theorem c7_update_semantics (req : BookRequest) (books : List Book) :
    (update_book req books).2
      = books.map (fun b =>
          if some b.id = req.id then
            { id := b.id, title := req.title, author := req.author,
              description := req.description, rating := req.rating,
              published_date := req.published_date }
          else b)
    ∧ ((update_book req books).1 = none ↔ ∀ b ∈ books, ¬ some b.id = req.id) := by
  constructor
  · show (update_book req books).2 = _
    unfold update_book
    simp only []
    exact update_book_scan_fst req books
  · unfold update_book
    simp only []
    by_cases hc : (update_book_scan req books).2
    · simp [hc, ← update_book_scan_snd req books]
    · simp only [Bool.not_eq_true] at hc
      simp [hc, ← update_book_scan_snd req books]

/-- C8: rating filter.  For any catalog and any query value `N` with
`0 < N < 6` (the transport-layer `Query(gt=0, lt=6)` bounds), the handler
returns exactly the entries with `rating ≤ N`, in catalog order. -/
theorem c8_rating_filter (books : List Book) (book_rating : Int)
    (_h1 : 0 < book_rating) (_h2 : book_rating < 6) :
    read_book_by_rating book_rating books
      = books.filter (fun b => b.rating ≤ book_rating) := by
  unfold read_book_by_rating
  simpa using foldl_filter_acc (fun b => b.rating ≤ book_rating) books []

/-- Witness for C8: a concrete three-book catalog filtered at rating 3. -/
theorem c8_rating_filter_witness :
    (0 : Int) < 3 ∧ (3 : Int) < 6
    ∧ read_book_by_rating 3
        [⟨1, "a", "a", "a", 5, 2020⟩, ⟨2, "b", "b", "b", 2, 2021⟩, ⟨3, "c", "c", "c", 3, 2022⟩]
      = [⟨2, "b", "b", "b", 2, 2021⟩, ⟨3, "c", "c", "c", 3, 2022⟩] := by
  refine ⟨by decide, by decide, ?_⟩
  rw [c8_rating_filter _ 3 (by decide) (by decide)]
  rfl

/-- C9: cache-backend error handling.  When the store is unreachable, the
debug key-listing endpoint catches the error and still returns a 200
response whose body carries the error description, while inside the caching
decorator the failing `get` is not caught and the error propagates to the
caller, aborting the request. -/
theorem c9_backend_error_handling (be : Backend) (hdown : be.up = false)
    (ttl : Nat) (c : HandlerCall) (books : List Book) :
    list_redis_keys be = (200, .obj [("error", .str connectionErrorMsg)])
    ∧ cacheWrapper ttl c books be = .error connectionErrorMsg := by
  constructor
  · unfold list_redis_keys bKeys
    rw [hdown]
    rfl
  · unfold cacheWrapper bGet
    rw [hdown]
    rfl

/-- Witness for C9: a concrete unreachable backend. -/
theorem c9_backend_error_handling_witness :
    Backend.up ⟨false, []⟩ = false
    ∧ list_redis_keys ⟨false, []⟩ = (200, .obj [("error", .str connectionErrorMsg)])
    ∧ cacheWrapper 600 .read_all_books [] ⟨false, []⟩ = .error connectionErrorMsg :=
  ⟨rfl, (c9_backend_error_handling ⟨false, []⟩ rfl 600 .read_all_books []).1,
    (c9_backend_error_handling ⟨false, []⟩ rfl 600 .read_all_books []).2⟩

/-- C10: atomicity on NotFound.  Whenever `read_book`, `update_book` or
`delete_book` raises 404 (modelled by a `none` result), the catalog `BOOKS`
is returned exactly as it was — the error path performs no mutation. -/
theorem c10_notfound_no_mutation (books : List Book) (book_id : Int) (req : BookRequest) :
    ((read_book book_id books).1 = none → (read_book book_id books).2 = books)
    ∧ ((update_book req books).1 = none → (update_book req books).2 = books)
    ∧ ((delete_book book_id books).1 = none → (delete_book book_id books).2 = books) := by
  refine ⟨fun _ => rfl, ?_, ?_⟩
  · intro h404
    have hflag : (update_book_scan req books).2 = false := by
      unfold update_book at h404
      simp only [] at h404
      by_cases hc : (update_book_scan req books).2
      · simp [hc] at h404
      · simpa using hc
    have hnone := (update_book_scan_snd req books).mp hflag
    unfold update_book
    simp only []
    rw [update_book_scan_fst req books]
    have hmap := List.map_congr_left (l := books) (fun b hb => by
      simp [hnone b hb] :
      ∀ b ∈ books, (fun b =>
        if some b.id = req.id then
          ({ id := b.id, title := req.title, author := req.author,
             description := req.description, rating := req.rating,
             published_date := req.published_date } : Book)
        else b) b = id b)
    rw [hmap, List.map_id]
  · intro h404
    unfold delete_book at h404 ⊢
    cases hscan : delete_book_scan book_id books with
    | some l => rw [hscan] at h404; simp at h404
    | none => rfl

/-- Witness for C10: a one-book catalog (id 1) and requests targeting the
absent id 2; all three operations 404 and return the catalog unchanged. -/
theorem c10_notfound_no_mutation_witness :
    (read_book 2 [⟨1, "a", "a", "a", 1, 2000⟩]).2 = [⟨1, "a", "a", "a", 1, 2000⟩]
    ∧ (update_book ⟨some 2, "t", "t", "t", 2, 2001⟩ [⟨1, "a", "a", "a", 1, 2000⟩]).2
        = [⟨1, "a", "a", "a", 1, 2000⟩]
    ∧ (delete_book 2 [⟨1, "a", "a", "a", 1, 2000⟩]).2 = [⟨1, "a", "a", "a", 1, 2000⟩] :=
  ⟨(c10_notfound_no_mutation [⟨1, "a", "a", "a", 1, 2000⟩] 2
      ⟨some 2, "t", "t", "t", 2, 2001⟩).1 rfl,
   (c10_notfound_no_mutation [⟨1, "a", "a", "a", 1, 2000⟩] 2
      ⟨some 2, "t", "t", "t", 2, 2001⟩).2.1 rfl,
   (c10_notfound_no_mutation [⟨1, "a", "a", "a", 1, 2000⟩] 2
      ⟨some 2, "t", "t", "t", 2, 2001⟩).2.2 rfl⟩

/- ---------------------------------------------------------------- -/
/- Store-loop characterization.                                      -/
/- ---------------------------------------------------------------- -/

theorem lookup_setAssoc (key : String) (v : Json) (data : List (String × Json)) :
    (setAssoc key v data).lookup key = some v := by
  induction data with
  | nil => simp [setAssoc, List.lookup]
  | cons p rest ih =>
    by_cases h : p.1 = key
    · simp [setAssoc, h, List.lookup]
    · simp only [setAssoc, if_neg h, List.lookup]
      have : (key == p.1) = false := by
        simp only [beq_eq_false_iff_ne, ne_eq]
        exact fun hk => h hk.symm
      simp [this, ih]

theorem lookup_setAssoc_ne (key k : String) (v : Json) (data : List (String × Json))
    (hne : k ≠ key) : (setAssoc key v data).lookup k = data.lookup k := by
  have hbeq : (k == key) = false := by simpa using hne
  induction data with
  | nil => simp [setAssoc, List.lookup, hbeq]
  | cons p rest ih =>
    by_cases h : p.1 = key
    · have h2 : (k == p.1) = false := by rw [h]; exact hbeq
      simp [setAssoc, h, List.lookup, hbeq, h2]
    · simp [setAssoc, h, List.lookup, ih]

theorem setAssoc_setAssoc (key : String) (v1 v2 : Json) (data : List (String × Json)) :
    setAssoc key v2 (setAssoc key v1 data) = setAssoc key v2 data := by
  induction data with
  | nil => simp [setAssoc]
  | cons p rest ih =>
    by_cases h : p.1 = key
    · simp [setAssoc, h]
    · simp [setAssoc, h, ih]

theorem storeLoop_spec (key : String) (ttl : Nat) (bs : List Book) :
    ∀ (acc : List String) (data : List (String × Json)),
      storeLoop key ttl acc bs ⟨true, data⟩
        = .ok (acc ++ bs.map dumpsBookDict,
            ⟨true, if bs.isEmpty then data
                   else setAssoc key (.arr ((acc ++ bs.map dumpsBookDict).map Json.str)) data⟩,
            traceFor key ttl acc bs) := by
  induction bs with
  | nil => intro acc data; simp [storeLoop, traceFor]
  | cons b rest ih =>
    intro acc data
    simp only [storeLoop, bSet, bExpire]
    simp only [show (Backend.up ⟨true, data⟩) = true from rfl, if_pos rfl, if_true]
    rw [ih (acc ++ [dumpsBookDict b]) (setAssoc key (.arr ((acc ++ [dumpsBookDict b]).map Json.str)) data)]
    simp only [traceFor, List.isEmpty_cons, List.map_cons, List.append_assoc,
      List.singleton_append]
    by_cases hrest : rest.isEmpty
    · have : rest = [] := List.isEmpty_iff.mp hrest
      subst this
      simp [traceFor]
    · simp only [hrest, if_false, Bool.false_eq_true]
      rw [setAssoc_setAssoc]

theorem traceFor_eq_range (key : String) (ttl : Nat) (bs : List Book) :
    ∀ acc : List String,
      traceFor key ttl acc bs
        = (List.range bs.length).flatMap (fun i =>
            [KVOp.set key (.arr ((acc ++ (bs.take (i+1)).map dumpsBookDict).map Json.str)),
             KVOp.expire key ttl]) := by
  induction bs with
  | nil => intro acc; simp [traceFor]
  | cons b rest ih =>
    intro acc
    rw [traceFor, List.length_cons, List.range_succ_eq_map]
    rw [List.flatMap_cons, List.flatMap_map]
    have hfun : ∀ a : Nat,
        (acc ++ ((b :: rest).take (a.succ + 1)).map dumpsBookDict)
          = ((acc ++ [dumpsBookDict b]) ++ (rest.take (a + 1)).map dumpsBookDict) := by
      intro a
      rw [show a.succ + 1 = (a + 1) + 1 from rfl, List.take_succ_cons, List.map_cons,
        List.append_cons]
    simp only [Function.comp, hfun]
    rw [← ih (acc ++ [dumpsBookDict b])]
    simp

theorem serializeBooks_eq_map (bs : List Book) :
    serializeBooks bs = .arr ((bs.map dumpsBookDict).map Json.str) := by
  simp [serializeBooks, List.map_map, Function.comp]

/-- A reachable store with no entry under the derived key: the wrapper runs
the handler, then stores its serialized result — once for a single entity,
once per element (set-then-expire) for a list, and not at all for an empty
list. -/
theorem cacheWrapper_miss (ttl : Nat) (c : HandlerCall) (books : List Book)
    (data : List (String × Json)) (hmiss : data.lookup (cacheKey c) = none) :
    cacheWrapper ttl c books ⟨true, data⟩
      = match handlerBody c books with
        | (.single b, books') =>
          .ok (.book b, books', ⟨true, setAssoc (cacheKey c) (bookDict b) data⟩,
            [KVOp.set (cacheKey c) (bookDict b), KVOp.expire (cacheKey c) ttl])
        | (.list bs, books') =>
          .ok (.strList (bs.map dumpsBookDict), books',
            ⟨true, if bs.isEmpty then data else setAssoc (cacheKey c) (serializeBooks bs) data⟩,
            traceFor (cacheKey c) ttl [] bs) := by
  unfold cacheWrapper bGet
  simp only [show (Backend.up ⟨true, data⟩) = true from rfl, if_pos rfl, if_true, hmiss]
  cases hb : handlerBody c books with
  | mk res books' =>
    cases res with
    | single b =>
      simp [bSet, bExpire]
    | list bs =>
      simp only [storeLoop_spec (cacheKey c) ttl bs [] data]
      simp [serializeBooks_eq_map]

/-- The wrapper on a reachable store holding an entry under the derived
key: the cached payload is returned as decoded JSON, nothing runs and
nothing changes. -/
theorem cacheWrapper_hit (ttl : Nat) (c : HandlerCall) (books : List Book) (be : Backend)
    (v : Json) (hup : be.up = true) (hin : be.data.lookup (cacheKey c) = some v) :
    cacheWrapper ttl c books be = .ok (.json v, books, be, []) := by
  unfold cacheWrapper bGet
  rw [hup]
  simp [hin]

/-- C3: sequence-store loop.  On a miss whose handler result is an ordered
sequence of `N ≥ 1` books, the decorator performs exactly `N` set-then-expire
pairs on the same key, the `i`-th `set` (0-based index `i`) writing the
serialization of the first `i + 1` items, and the value stored under the key
when the call returns is the serialized full `N`-item list. -/
theorem c3_sequence_store_loop (ttl : Nat) (c : HandlerCall) (books : List Book)
    (data : List (String × Json)) (bs books' : List Book) (N : Nat)
    (hmiss : data.lookup (cacheKey c) = none)
    (hres : handlerBody c books = (.list bs, books'))
    (hN : bs.length = N) (hN1 : 1 ≤ N) :
    cacheWrapper ttl c books ⟨true, data⟩
      = .ok (.strList (bs.map dumpsBookDict), books',
          ⟨true, setAssoc (cacheKey c) (serializeBooks bs) data⟩,
          (List.range N).flatMap (fun i =>
            [KVOp.set (cacheKey c) (serializeBooks (bs.take (i + 1))),
             KVOp.expire (cacheKey c) ttl]))
    ∧ (setAssoc (cacheKey c) (serializeBooks bs) data).lookup (cacheKey c)
        = some (serializeBooks bs) := by
  have hne : bs.isEmpty = false := by
    cases bs with
    | nil => simp at hN; omega
    | cons a l => rfl
  constructor
  · rw [cacheWrapper_miss ttl c books data hmiss, hres]
    simp only [hne, if_false, Bool.false_eq_true]
    rw [traceFor_eq_range (cacheKey c) ttl bs []]
    subst hN
    simp only [List.nil_append, ← serializeBooks_eq_map]
  · exact lookup_setAssoc (cacheKey c) (serializeBooks bs) data

/-- Witness for C3: a miss on `read_all_books` over a two-book catalog
performs two set-then-expire pairs, first the one-element prefix, then the
full list, which is what remains stored. -/
theorem c3_sequence_store_loop_witness :
    cacheWrapper 600 .read_all_books
        [⟨1, "t", "a", "d", 5, 2020⟩, ⟨2, "u", "b", "e", 4, 2021⟩] ⟨true, []⟩
      = .ok (.strList [dumpsBookDict ⟨1, "t", "a", "d", 5, 2020⟩,
            dumpsBookDict ⟨2, "u", "b", "e", 4, 2021⟩],
          [⟨1, "t", "a", "d", 5, 2020⟩, ⟨2, "u", "b", "e", 4, 2021⟩],
          ⟨true, setAssoc (cacheKey .read_all_books)
            (serializeBooks [⟨1, "t", "a", "d", 5, 2020⟩, ⟨2, "u", "b", "e", 4, 2021⟩]) []⟩,
          [KVOp.set (cacheKey .read_all_books)
             (serializeBooks [⟨1, "t", "a", "d", 5, 2020⟩]),
           KVOp.expire (cacheKey .read_all_books) 600,
           KVOp.set (cacheKey .read_all_books)
             (serializeBooks [⟨1, "t", "a", "d", 5, 2020⟩, ⟨2, "u", "b", "e", 4, 2021⟩]),
           KVOp.expire (cacheKey .read_all_books) 600])
    ∧ (setAssoc (cacheKey .read_all_books)
        (serializeBooks [⟨1, "t", "a", "d", 5, 2020⟩, ⟨2, "u", "b", "e", 4, 2021⟩])
        []).lookup (cacheKey .read_all_books)
      = some (serializeBooks [⟨1, "t", "a", "d", 5, 2020⟩, ⟨2, "u", "b", "e", 4, 2021⟩]) := by
  have h := c3_sequence_store_loop 600 .read_all_books
    [⟨1, "t", "a", "d", 5, 2020⟩, ⟨2, "u", "b", "e", 4, 2021⟩] []
    [⟨1, "t", "a", "d", 5, 2020⟩, ⟨2, "u", "b", "e", 4, 2021⟩]
    [⟨1, "t", "a", "d", 5, 2020⟩, ⟨2, "u", "b", "e", 4, 2021⟩] 2 rfl rfl rfl (by decide)
  refine ⟨?_, h.2⟩
  rw [h.1]
  rfl

/-- C5 counterexample: a miss whose handler result is the empty sequence
stores nothing.  On an empty catalog, a miss of `read_all_books` performs
zero store mutations and leaves no entry under the derived key when the
call returns, refuting "this holds for every handler result". -/
theorem c5_counterexample :
    List.lookup (cacheKey .read_all_books) ([] : List (String × Json)) = none
    ∧ cacheWrapper 600 .read_all_books [] ⟨true, []⟩
        = .ok (.strList [], [], ⟨true, []⟩, [])
    ∧ List.lookup (cacheKey .read_all_books)
        (Backend.data ⟨true, []⟩) = none :=
  ⟨rfl, rfl, rfl⟩

/-- C5 (amended): on every miss, after the handler executes, the decorator
stores its serialized result under the derived key via `set` and then
applies the route TTL via a separate `expire` — once for a single-entity
result, per element for a non-empty sequence — so an entry (overwriting any
previous binding of the key) exists when the call returns; EXCEPT that for
an empty-sequence result the loop body never runs, so nothing is stored and
no entry exists. -/
theorem c5_entry_on_miss (ttl : Nat) (c : HandlerCall) (books : List Book)
    (data : List (String × Json)) (hmiss : data.lookup (cacheKey c) = none) :
    (∀ b books', handlerBody c books = (.single b, books') →
      cacheWrapper ttl c books ⟨true, data⟩
        = .ok (.book b, books', ⟨true, setAssoc (cacheKey c) (bookDict b) data⟩,
            [KVOp.set (cacheKey c) (bookDict b), KVOp.expire (cacheKey c) ttl])
      ∧ (setAssoc (cacheKey c) (bookDict b) data).lookup (cacheKey c) = some (bookDict b))
    ∧ (∀ bs books', handlerBody c books = (.list bs, books') → bs ≠ [] →
      cacheWrapper ttl c books ⟨true, data⟩
        = .ok (.strList (bs.map dumpsBookDict), books',
            ⟨true, setAssoc (cacheKey c) (serializeBooks bs) data⟩,
            traceFor (cacheKey c) ttl [] bs)
      ∧ (setAssoc (cacheKey c) (serializeBooks bs) data).lookup (cacheKey c)
          = some (serializeBooks bs))
    ∧ (∀ books', handlerBody c books = (.list [], books') →
      cacheWrapper ttl c books ⟨true, data⟩
        = .ok (.strList [], books', ⟨true, data⟩, [])) := by
  refine ⟨?_, ?_, ?_⟩
  · intro b books' hres
    rw [cacheWrapper_miss ttl c books data hmiss, hres]
    exact ⟨rfl, lookup_setAssoc (cacheKey c) (bookDict b) data⟩
  · intro bs books' hres hne
    have hempty : bs.isEmpty = false := by
      cases bs with
      | nil => exact absurd rfl hne
      | cons a l => rfl
    rw [cacheWrapper_miss ttl c books data hmiss, hres]
    refine ⟨?_, lookup_setAssoc (cacheKey c) (serializeBooks bs) data⟩
    simp only [hempty, if_false, Bool.false_eq_true]
  · intro books' hres
    rw [cacheWrapper_miss ttl c books data hmiss, hres]
    rfl

/-- Witness for C5: a miss of the wrapped write `create_book` on an empty
catalog stores the created book's field mapping and leaves it readable
under the key. -/
theorem c5_entry_on_miss_witness :
    cacheWrapper 600 (.create_book ⟨none, "A new book", "roby", "d", 5, 2029⟩) [] ⟨true, []⟩
      = .ok (.book ⟨1, "A new book", "roby", "d", 5, 2029⟩,
          [⟨1, "A new book", "roby", "d", 5, 2029⟩],
          ⟨true, setAssoc (cacheKey (.create_book ⟨none, "A new book", "roby", "d", 5, 2029⟩))
            (bookDict ⟨1, "A new book", "roby", "d", 5, 2029⟩) []⟩,
          [KVOp.set (cacheKey (.create_book ⟨none, "A new book", "roby", "d", 5, 2029⟩))
             (bookDict ⟨1, "A new book", "roby", "d", 5, 2029⟩),
           KVOp.expire (cacheKey (.create_book ⟨none, "A new book", "roby", "d", 5, 2029⟩)) 600])
    ∧ (setAssoc (cacheKey (.create_book ⟨none, "A new book", "roby", "d", 5, 2029⟩))
        (bookDict ⟨1, "A new book", "roby", "d", 5, 2029⟩) []).lookup
        (cacheKey (.create_book ⟨none, "A new book", "roby", "d", 5, 2029⟩))
      = some (bookDict ⟨1, "A new book", "roby", "d", 5, 2029⟩) :=
  (c5_entry_on_miss 600 (.create_book ⟨none, "A new book", "roby", "d", 5, 2029⟩) [] [] rfl).1
    ⟨1, "A new book", "roby", "d", 5, 2029⟩ [⟨1, "A new book", "roby", "d", 5, 2029⟩] rfl

/-- C4 counterexample: for a sequence payload the decoded cached structure
is NOT a sequence of field mappings.  A miss of `read_all_books` over a
one-book catalog stores an array whose element is a JSON *string* (the
`json.dumps` text of the field mapping); the subsequent hit returns that
array of strings, and a string is not a field mapping. -/
theorem c4_counterexample :
    cacheWrapper 600 .read_all_books [⟨1, "t", "a", "d", 5, 2020⟩] ⟨true, []⟩
      = .ok (.strList [dumpsBookDict ⟨1, "t", "a", "d", 5, 2020⟩],
          [⟨1, "t", "a", "d", 5, 2020⟩],
          ⟨true, [(cacheKey .read_all_books,
            Json.arr [Json.str (dumpsBookDict ⟨1, "t", "a", "d", 5, 2020⟩)])]⟩,
          [KVOp.set (cacheKey .read_all_books)
             (Json.arr [Json.str (dumpsBookDict ⟨1, "t", "a", "d", 5, 2020⟩)]),
           KVOp.expire (cacheKey .read_all_books) 600])
    ∧ cacheWrapper 600 .read_all_books [⟨1, "t", "a", "d", 5, 2020⟩]
        ⟨true, [(cacheKey .read_all_books,
          Json.arr [Json.str (dumpsBookDict ⟨1, "t", "a", "d", 5, 2020⟩)])]⟩
      = .ok (.json (Json.arr [Json.str (dumpsBookDict ⟨1, "t", "a", "d", 5, 2020⟩)]),
          [⟨1, "t", "a", "d", 5, 2020⟩],
          ⟨true, [(cacheKey .read_all_books,
            Json.arr [Json.str (dumpsBookDict ⟨1, "t", "a", "d", 5, 2020⟩)])]⟩, [])
    ∧ (∀ fields : List (String × Json),
        Json.str (dumpsBookDict ⟨1, "t", "a", "d", 5, 2020⟩) ≠ Json.obj fields) :=
  ⟨rfl, rfl, fun _ h => Json.noConfusion h⟩

/-- C4 (amended): hit payload shape.  A hit returns the decoded generic
stored structure: for a single-entity payload a field mapping carrying
exactly the entity's six fields, and for a sequence payload an array of
serialized field-mapping texts; in either case the hit carries the same
field data as the (populating) miss returned, the representations differing
(typed object vs mapping; list of texts vs array of JSON strings). -/
theorem c4_hit_payload_shape (ttl : Nat) (c : HandlerCall) (books books1 : List Book)
    (data : List (String × Json)) (resp : PyVal) (books' : List Book) (be' : Backend)
    (ops : List KVOp) (v : Json)
    (hmiss : data.lookup (cacheKey c) = none)
    (hrun : cacheWrapper ttl c books ⟨true, data⟩ = .ok (resp, books', be', ops))
    (hcached : be'.data.lookup (cacheKey c) = some v) :
    cacheWrapper ttl c books1 be' = .ok (.json v, books1, be', [])
    ∧ ((∃ b, resp = .book b ∧ v = bookDict b)
       ∨ (∃ l, resp = .strList l ∧ v = .arr (l.map Json.str))) := by
  rw [cacheWrapper_miss ttl c books data hmiss] at hrun
  cases hb : handlerBody c books with
  | mk res books2 =>
    rw [hb] at hrun
    cases res with
    | single b =>
      simp only [Except.ok.injEq, Prod.mk.injEq] at hrun
      obtain ⟨hresp, hbooks, hbe, hops⟩ := hrun
      subst hresp hbe
      rw [lookup_setAssoc] at hcached
      have hv : v = bookDict b := by
        exact (Option.some.injEq _ _).mp hcached |>.symm
      subst hv
      refine ⟨cacheWrapper_hit ttl c books1 _ _ rfl (lookup_setAssoc _ _ _), ?_⟩
      exact Or.inl ⟨b, rfl, rfl⟩
    | list bs =>
      by_cases hempty : bs.isEmpty
      · have hnil : bs = [] := List.isEmpty_iff.mp hempty
        subst hnil
        simp only [List.isEmpty_nil, if_true, List.map_nil] at hrun
        simp only [Except.ok.injEq, Prod.mk.injEq] at hrun
        obtain ⟨hresp, hbooks, hbe, hops⟩ := hrun
        subst hbe
        rw [hmiss] at hcached
        exact absurd hcached (by simp)
      · simp only [hempty, if_false, Bool.false_eq_true] at hrun
        simp only [Except.ok.injEq, Prod.mk.injEq] at hrun
        obtain ⟨hresp, hbooks, hbe, hops⟩ := hrun
        subst hresp hbe
        rw [lookup_setAssoc] at hcached
        have hv : v = serializeBooks bs := by
          exact (Option.some.injEq _ _).mp hcached |>.symm
        subst hv
        refine ⟨cacheWrapper_hit ttl c books1 _ _ rfl (lookup_setAssoc _ _ _), ?_⟩
        exact Or.inr ⟨bs.map dumpsBookDict, rfl, serializeBooks_eq_map bs⟩

/-- Witness for C4 at a concrete input: after the miss on a one-book
catalog, the hit returns the stored array-of-strings payload, which carries
the miss's `result_list` data. -/
theorem c4_hit_payload_shape_witness :
    cacheWrapper 600 .read_all_books [⟨1, "t", "a", "d", 5, 2020⟩]
        ⟨true, [(cacheKey .read_all_books,
          Json.arr [Json.str (dumpsBookDict ⟨1, "t", "a", "d", 5, 2020⟩)])]⟩
      = .ok (.json (Json.arr [Json.str (dumpsBookDict ⟨1, "t", "a", "d", 5, 2020⟩)]),
          [⟨1, "t", "a", "d", 5, 2020⟩],
          ⟨true, [(cacheKey .read_all_books,
            Json.arr [Json.str (dumpsBookDict ⟨1, "t", "a", "d", 5, 2020⟩)])]⟩, [])
    ∧ ((∃ b, PyVal.strList [dumpsBookDict ⟨1, "t", "a", "d", 5, 2020⟩] = PyVal.book b
          ∧ Json.arr [Json.str (dumpsBookDict ⟨1, "t", "a", "d", 5, 2020⟩)] = bookDict b)
       ∨ (∃ l, PyVal.strList [dumpsBookDict ⟨1, "t", "a", "d", 5, 2020⟩] = PyVal.strList l
          ∧ Json.arr [Json.str (dumpsBookDict ⟨1, "t", "a", "d", 5, 2020⟩)]
              = Json.arr (l.map Json.str))) :=
  c4_hit_payload_shape 600 .read_all_books [⟨1, "t", "a", "d", 5, 2020⟩]
    [⟨1, "t", "a", "d", 5, 2020⟩] []
    (.strList [dumpsBookDict ⟨1, "t", "a", "d", 5, 2020⟩])
    [⟨1, "t", "a", "d", 5, 2020⟩]
    ⟨true, [(cacheKey .read_all_books,
      Json.arr [Json.str (dumpsBookDict ⟨1, "t", "a", "d", 5, 2020⟩)])]⟩
    [KVOp.set (cacheKey .read_all_books)
       (Json.arr [Json.str (dumpsBookDict ⟨1, "t", "a", "d", 5, 2020⟩)]),
     KVOp.expire (cacheKey .read_all_books) 600]
    (Json.arr [Json.str (dumpsBookDict ⟨1, "t", "a", "d", 5, 2020⟩)])
    rfl rfl rfl
